import Mathlib

/-!
Shallow embedding of `src/app/app.py` (the FastAPI cache-aside item service).

Modelling conventions:
* The environment (`Env`) captures the reachability of the two external
  dependencies and whether an operation on an established connection raises:
  - `appEnvLocal`    : `APP_ENV == "local"` (then `get_db_connection` returns `None`);
  - `dbReachable`    : `psycopg2.connect` succeeds;
  - `dbOpFails`      : a SQL statement executed on an open connection raises;
  - `redisHostSet`   : `REDIS_HOST` is set;
  - `redisReachable` : `redis.Redis(...)` plus `ping()` succeeds;
  - `redisOpFails`   : a `get`/`setex` on the obtained client raises.
* The items table is a keyed relation (id is `SERIAL PRIMARY KEY`), embedded as
  an association list with unique keys; the Redis keyspace is an association
  list keyed by the string `"item:<id>"`.  TTL expiry is not modelled: every
  claim concerns an immediately following operation, well inside the 60 s TTL.
* A Python exception escaping a handler is the response `Resp.exn` (FastAPI
  turns it into a 500); a handler returning a plain dict is a 200 response
  (`Resp.item` / `Resp.errorBody`); an explicit `JSONResponse(status_code, ...)`
  is `Resp.jsonError`.
* SQL statements act atomically on the committed state (statement-level
  granularity); a statement raising before `commit` leaves the state unchanged
  (the transaction is rolled back).
-/

structure Env where
  appEnvLocal : Bool
  dbReachable : Bool
  dbOpFails : Bool
  redisHostSet : Bool
  redisReachable : Bool
  redisOpFails : Bool
deriving DecidableEq

/-- Association-list lookup for the items table (`SELECT value FROM items WHERE id = %s`). -/
def lookupA (l : List (Int × String)) (k : Int) : Option String :=
  (l.find? (fun p => decide (p.1 = k))).map Prod.snd

/-- Association-list lookup for the Redis keyspace (`r.get(key)` on a live client). -/
def lookupC (l : List (String × String)) (k : String) : Option String :=
  (l.find? (fun p => decide (p.1 = k))).map Prod.snd

/-- Keyed upsert on the items table:
`INSERT ... ON CONFLICT (id) DO UPDATE SET value = %s`. -/
def upsert (l : List (Int × String)) (k : Int) (v : String) : List (Int × String) :=
  (k, v) :: l.filter (fun p => decide (p.1 ≠ k))

/-- Redis `SETEX key 60 value`: overwrite the entry for `k`. -/
def upsertC (l : List (String × String)) (k : String) (v : String) : List (String × String) :=
  (k, v) :: l.filter (fun p => decide (p.1 ≠ k))

/-- One-row `INSERT ... ON CONFLICT DO NOTHING`: insert only if the id is
absent; also report whether a row was actually added. -/
def insertIfAbsent (l : List (Int × String)) (k : Int) (v : String) :
    List (Int × String) × Option Int :=
  if (lookupA l k).isSome then (l, none) else (l ++ [(k, v)], some k)

/-- The three demo rows inserted by `ensure_table` when `COUNT(*) = 0`. -/
def seedRows : List (Int × String) :=
  [(1, "Hello from PostgreSQL!"),
   (2, "Multi-tier architecture works!"),
   (3, "ECS Fargate is awesome!")]

/-- The Redis key used for an item: `f"item:{item_id}"`. -/
def itemKey (id : Int) : String := "item:" ++ toString id

/-- Model of `get_db_connection()`: yields a usable connection iff the app is not in
local mode and the database is reachable (all exceptions are caught and turned
into `None`). -/
def get_db_connection (env : Env) : Bool :=
  !env.appEnvLocal && env.dbReachable

/-- Model of `get_redis_client()`: yields a client iff `REDIS_HOST` is set and the
connection plus `ping()` succeeds (all exceptions are caught, returning `None`). -/
def get_redis_client (env : Env) : Bool :=
  env.redisHostSet && env.redisReachable

/-- Process state shared by the handlers: the `_table_ready` module flag,
whether the `items` table exists, its committed rows, and the Redis keyspace. -/
structure Sys where
  tableReady : Bool
  tableExists : Bool
  db : List (Int × String)
  cache : List (String × String)
deriving DecidableEq

/-- The store I/O operations `ensure_table` can perform, recorded so that
"returns immediately without store I/O" is a statement about the model. -/
inductive StoreOp where
  | connectAttempt
  | createTable
  | countRows
  | insertSeed
  | commit
deriving DecidableEq

/-- The successful run of the `ensure_table` try-block: `CREATE TABLE IF NOT
EXISTS`, `SELECT COUNT(*)`, seed iff the count is 0, commit, set the flag. -/
def ensure_table_go (s : Sys) : Sys :=
  let rows0 := if s.tableExists then s.db else []
  let rows1 := if rows0.isEmpty then seedRows else rows0
  { s with tableReady := true, tableExists := true, db := rows1 }

/-- Model of `ensure_table()`: if `_table_ready` return; else connect (give up silently
on failure), `CREATE TABLE IF NOT EXISTS`, seed iff `COUNT(*) = 0`, commit and
set `_table_ready = True`; any exception is caught and the flag stays unset. -/
def ensure_table (env : Env) (s : Sys) : Sys × List StoreOp :=
  if s.tableReady then (s, [])
  else if !get_db_connection env then (s, [.connectAttempt])
  else if env.dbOpFails then
    -- a statement in the try-block raised: rollback, flag stays false
    (s, [.connectAttempt, .createTable])
  else
    (ensure_table_go s,
     [.connectAttempt, .createTable, .countRows] ++
       (if (if s.tableExists then s.db else []).isEmpty then [.insertSeed] else []) ++
       [.commit])

/-- Handler responses. `item` is the 200 JSON body `{id, value, source[, action]}`;
`errorBody` is a plain dict `{"error": msg}` (FastAPI serves it with status 200);
`jsonError` is an explicit `JSONResponse(status_code=..., {"error": msg})`;
`exn` is an exception escaping the handler (served as 500). -/
inductive Resp where
  | item (id : Int) (value : String) (source : String) (action : Option String)
  | errorBody (msg : String)
  | jsonError (status : Nat) (msg : String)
  | exn (msg : String)
deriving DecidableEq

/-- HTTP status of a response as FastAPI serves it. -/
def respStatus : Resp → Nat
  | .item _ _ _ _ => 200
  | .errorBody _ => 200
  | .jsonError st _ => st
  | .exn _ => 500

/-- The DB-fallback part of `get_data` (from `conn = get_db_connection()` on);
`r` says whether a Redis client was obtained earlier in the handler. -/
def get_data_db (env : Env) (s1 : Sys) (r : Bool) (item_id : Int) : Resp × Sys :=
  if !get_db_connection env then (.errorBody "database unavailable", s1)
  else if env.dbOpFails || !s1.tableExists then (.exn "db operation failed", s1)
  else
    match lookupA s1.db item_id with
    | none => (.errorBody "item not found", s1)
    | some v =>
      if r then
        if env.redisOpFails then (.exn "redis operation failed", s1)
        else (.item item_id v "database" none,
              { s1 with cache := upsertC s1.cache (itemKey item_id) v })
      else (.item item_id v "database" none, s1)

/-- Model of `GET /data/{item_id}` (`get_data`): `ensure_table()`, then Redis first
(a cached value is a hit only if truthy, i.e. non-empty), then DB fallback,
then best-effort `setex` repopulation. -/
def get_data (env : Env) (s : Sys) (item_id : Int) : Resp × Sys :=
  let s1 := (ensure_table env s).1
  let r := get_redis_client env
  if r then
    if env.redisOpFails then (.exn "redis operation failed", s1)
    else
      match lookupC s1.cache (itemKey item_id) with
      | some c => if c = "" then get_data_db env s1 r item_id
                  else (.item item_id c "redis" none, s1)
      | none => get_data_db env s1 r item_id
  else get_data_db env s1 r item_id

/-- Model of `POST /data` (`create_data`): `ensure_table()`, 503 if no connection,
upsert + commit, then best-effort Redis `setex`; any exception in the
try-block is answered with a 500 `JSONResponse`.  The response always carries
`source: "database"` and `action: "created"`. -/
def create_data (env : Env) (s : Sys) (id : Int) (v : String) : Resp × Sys :=
  let s1 := (ensure_table env s).1
  if !get_db_connection env then (.jsonError 503 "database unavailable", s1)
  else if env.dbOpFails || !s1.tableExists then (.jsonError 500 "db operation failed", s1)
  else
    let s2 := { s1 with db := upsert s1.db id v }
    let r := get_redis_client env
    if r then
      if env.redisOpFails then (.jsonError 500 "redis operation failed", s2)
      else (.item id v "database" (some "created"),
            { s2 with cache := upsertC s2.cache (itemKey id) v })
    else (.item id v "database" (some "created"), s2)

/-- The `startup` event handler: up to 5 attempts; on the first attempt whose
connection succeeds, run `ensure_table` and return; otherwise sleep 3 s and
retry; after the 5th failure, give up and let the process serve.  `envs` gives
the environment seen by each attempt.  Returns the final state, the number of
attempts made, and the total seconds slept. -/
def startupGo : List Env → Sys → Sys × Nat × Nat
  | [], s => (s, 0, 0)
  | e :: rest, s =>
    if get_db_connection e then ((ensure_table e s).1, 1, 0)
    else
      ((startupGo rest s).1, (startupGo rest s).2.1 + 1, (startupGo rest s).2.2 + 3)

/-- Model of `startup()`: the retry loop runs `range(5)`. -/
def startup (envs : List Env) (s : Sys) : Sys × Nat × Nat :=
  startupGo (envs.take 5) s

/-!
Interleaving model of `ensure_table` under concurrent callers.

FastAPI runs the sync handlers on a thread pool, so several requests can be
inside `ensure_table` at once; the function takes no lock.  Each caller is a
small program advancing through the statements of `ensure_table`; a scheduler
picks at each step which caller advances (and whether its `get_db_connection`
succeeds).  Statements act atomically on the shared committed state.
-/

/-- Program counter of one caller inside `ensure_table`. -/
inductive Pc where
  | start
  | connected
  | created
  | counted (n : Nat)
  | inserted
  | done
deriving DecidableEq

/-- Shared state plus per-caller program counters.  `insertedIds` logs the ids
actually added by seed-insert statements; `seedStmtExecs` counts how many times
the seed `INSERT` statement was executed at all. -/
structure IState where
  flag : Bool
  tableExists : Bool
  rows : List (Int × String)
  insertedIds : List Int
  seedStmtExecs : Nat
  pcs : List Pc
deriving DecidableEq

/-- One row of a multi-row `INSERT ... ON CONFLICT DO NOTHING`, threading the
log of ids actually added. -/
def seedFoldStep (acc : List (Int × String) × List Int) (p : Int × String) :
    List (Int × String) × List Int :=
  ((insertIfAbsent acc.1 p.1 p.2).1, acc.2 ++ (insertIfAbsent acc.1 p.1 p.2).2.toList)

/-- Run the seed `INSERT ... ON CONFLICT DO NOTHING`: each of the three rows is
added only if its id is absent; returns the new table and the ids added. -/
def seedInsert (rows : List (Int × String)) : List (Int × String) × List Int :=
  seedRows.foldl seedFoldStep (rows, [])

/-- Advance caller `i` by one statement; `b` decides whether its connection
attempt succeeds.  A caller at `done` (or an out-of-range index) is a no-op. -/
def istep (st : IState) (i : Nat) (b : Bool) : IState :=
  match st.pcs.get? i with
  | none => st
  | some pc =>
    match pc with
    | .start =>
      if st.flag then { st with pcs := st.pcs.set i .done }
      else if b then { st with pcs := st.pcs.set i .connected }
      else { st with pcs := st.pcs.set i .done }
    | .connected =>
      -- CREATE TABLE IF NOT EXISTS
      { st with tableExists := true, pcs := st.pcs.set i .created }
    | .created =>
      -- SELECT COUNT(*) FROM items
      { st with pcs := st.pcs.set i (.counted st.rows.length) }
    | .counted n =>
      if n = 0 then
        let r := seedInsert st.rows
        { st with rows := r.1, insertedIds := st.insertedIds ++ r.2,
                  seedStmtExecs := st.seedStmtExecs + 1, pcs := st.pcs.set i .inserted }
      else { st with pcs := st.pcs.set i .inserted }
    | .inserted =>
      -- commit; _table_ready = True
      { st with flag := true, pcs := st.pcs.set i .done }
    | .done => st

/-- Run a schedule: each entry picks a caller and its connection outcome. -/
def irun (sched : List (Nat × Bool)) (st : IState) : IState :=
  sched.foldl (fun s q => istep s q.1 q.2) st

/-- Initial state: `n` fresh concurrent first callers over an empty store. -/
def iinit (n : Nat) : IState :=
  { flag := false, tableExists := false, rows := [], insertedIds := [],
    seedStmtExecs := 0, pcs := List.replicate n .start }

/-- Number of callers currently between the connection and the commit, i.e.
inside the critical section of the initializer. -/
def activeCount (st : IState) : Nat :=
  (st.pcs.filter (fun pc =>
    match pc with
    | .connected => true
    | .created => true
    | .counted _ => true
    | .inserted => true
    | _ => false)).length

/-- The invariant of the concurrent-initialization model: the log of actually
inserted seed ids has no duplicates, every logged id is present in the table,
the table keys are unique, and only the three seed ids are ever seed-inserted. -/
def IInv (st : IState) : Prop :=
  st.insertedIds.Nodup ∧
  (∀ id ∈ st.insertedIds, (lookupA st.rows id).isSome) ∧
  (st.rows.map Prod.fst).Nodup ∧
  (∀ id ∈ st.insertedIds, id = 1 ∨ id = 2 ∨ id = 3)

/-! ### Concrete fixtures used by witnesses and counterexamples -/

/-- Store reachable and healthy, cache configured and healthy. -/
def envGood : Env := ⟨false, true, false, true, true, false⟩

/-- Store reachable and healthy, `REDIS_HOST` unset (cache layer off). -/
def envNoRedis : Env := ⟨false, true, false, false, false, false⟩

/-- Environment where `psycopg2.connect` fails (store unreachable); cache off. -/
def envDbDown : Env := ⟨false, false, false, false, false, false⟩

/-- Cache connects and pings fine, but `get`/`setex` on it raises. -/
def envRedisOpFail : Env := ⟨false, true, false, true, true, true⟩

/-- Fresh process state: flag unset, no table, empty cache. -/
def s0 : Sys := ⟨false, false, [], []⟩

/-- Initialized state holding the three seed rows. -/
def sReady : Sys := ⟨true, true, seedRows, []⟩

/-- Initialized state where id 5 already holds a value. -/
def sExisting : Sys := ⟨true, true, [(5, "old")], []⟩

/-- Initialized state where id 9 holds the empty string, cached as `""`. -/
def sEmptyVal : Sys := ⟨true, true, [(9, "")], [("item:9", "")]⟩

/-- A schedule interleaving two concurrent first callers of `ensure_table`
statement by statement. -/
def sched2 : List (Nat × Bool) :=
  [(0, true), (1, true), (0, true), (1, true), (0, true), (1, true),
   (0, true), (1, true), (0, true), (1, true)]

/-! ### Lemmas about the table and cache maps -/

theorem lookupA_append (l1 l2 : List (Int × String)) (k : Int) :
    lookupA (l1 ++ l2) k = (lookupA l1 k).or (lookupA l2 k) := by
  unfold lookupA
  rw [List.find?_append]
  cases l1.find? (fun p => decide (p.1 = k)) <;> simp

theorem lookupA_isSome_append (l : List (Int × String)) (q : Int × String) (k : Int)
    (h : (lookupA l k).isSome) : (lookupA (l ++ [q]) k).isSome := by
  rw [lookupA_append]
  cases hl : lookupA l k <;> simp_all

theorem lookupA_eq_none_iff (l : List (Int × String)) (k : Int) :
    lookupA l k = none ↔ k ∉ l.map Prod.fst := by
  unfold lookupA
  cases hfind : l.find? (fun p => decide (p.1 = k)) with
  | some p =>
    have hpk : p.1 = k := by simpa using List.find?_some hfind
    have hmem : p ∈ l := List.mem_of_find?_eq_some hfind
    constructor
    · intro hx
      exact Option.noConfusion hx
    · intro hk
      exact (hk (List.mem_map.mpr ⟨p, hmem, hpk⟩)).elim
  | none =>
    rw [List.find?_eq_none] at hfind
    constructor
    · intro _ hk
      obtain ⟨p, hp, hfst⟩ := List.mem_map.mp hk
      exact absurd (by simpa using hfst) (by simpa using hfind p hp)
    · intro _
      rfl

theorem lookupA_append_self (l : List (Int × String)) (k : Int) (v : String)
    (h : lookupA l k = none) : lookupA (l ++ [(k, v)]) k = some v := by
  rw [lookupA_append, h]
  simp [lookupA, List.find?]

theorem lookupA_upsert_self (l : List (Int × String)) (k : Int) (v : String) :
    lookupA (upsert l k v) k = some v := by
  unfold lookupA upsert
  rw [List.find?_cons_of_pos _ (by simp)]
  rfl

theorem lookupC_upsertC_self (l : List (String × String)) (k : String) (v : String) :
    lookupC (upsertC l k v) k = some v := by
  unfold lookupC upsertC
  rw [List.find?_cons_of_pos _ (by simp)]
  rfl

theorem insertIfAbsent_of_present (l : List (Int × String)) (k : Int) (v : String)
    (h : (lookupA l k).isSome) : insertIfAbsent l k v = (l, none) := by
  simp [insertIfAbsent, h]

theorem insertIfAbsent_of_absent (l : List (Int × String)) (k : Int) (v : String)
    (h : lookupA l k = none) : insertIfAbsent l k v = (l ++ [(k, v)], some k) := by
  simp [insertIfAbsent, h]

/-! ### Lemmas about `ensure_table` -/

theorem ensure_table_of_ready (env : Env) (s : Sys) (h : s.tableReady = true) :
    ensure_table env s = (s, []) := by
  simp [ensure_table, h]

theorem ensure_table_success (env : Env) (s : Sys) (hr : s.tableReady = false)
    (hc : get_db_connection env = true) (hf : env.dbOpFails = false) :
    (ensure_table env s).1 = ensure_table_go s := by
  simp [ensure_table, hr, hc, hf]

theorem ensure_table_cache (env : Env) (s : Sys) :
    (ensure_table env s).1.cache = s.cache := by
  unfold ensure_table
  repeat' split
  all_goals rfl

theorem ensure_table_ready_mono (env : Env) (s : Sys) (h : s.tableReady = true) :
    (ensure_table env s).1.tableReady = true := by
  rw [ensure_table_of_ready env s h]; exact h

theorem ensure_table_post (env : Env) (s : Sys)
    (hc : get_db_connection env = true) (hf : env.dbOpFails = false)
    (hs : s.tableReady = true → s.tableExists = true) :
    (ensure_table env s).1.tableReady = true ∧ (ensure_table env s).1.tableExists = true := by
  by_cases hr : s.tableReady = true
  · rw [ensure_table_of_ready env s hr]
    exact ⟨hr, hs hr⟩
  · rw [ensure_table_success env s (by simpa using hr) hc hf]
    exact ⟨rfl, rfl⟩

theorem ensure_table_fail (env : Env) (s : Sys)
    (h : get_db_connection env = false ∨ env.dbOpFails = true) :
    (ensure_table env s).1 = s := by
  by_cases hr : s.tableReady = true
  · rw [ensure_table_of_ready env s hr]
  · rcases h with h | h
    · simp [ensure_table, hr, h]
    · unfold ensure_table
      rw [if_neg hr]
      by_cases hcb : (!get_db_connection env) = true
      · rw [if_pos hcb]
      · rw [if_neg hcb, if_pos h]

theorem ensure_table_ready_cases (env : Env) (s : Sys)
    (h : (ensure_table env s).1.tableReady = true) :
    s.tableReady = true ∨ (get_db_connection env = true ∧ env.dbOpFails = false) := by
  by_cases hr : s.tableReady = true
  · exact Or.inl hr
  · right
    by_cases hc : get_db_connection env = true
    · by_cases hf : env.dbOpFails = true
      · exfalso
        rw [ensure_table_fail env s (Or.inr hf)] at h
        exact hr h
      · exact ⟨hc, by simpa using hf⟩
    · exfalso
      rw [ensure_table_fail env s (Or.inl (by simpa using hc))] at h
      exact hr h

theorem lookupA_seedRows_none (id : Int) (h1 : id ≠ 1) (h2 : id ≠ 2) (h3 : id ≠ 3) :
    lookupA seedRows id = none := by
  rw [lookupA_eq_none_iff]
  simp [seedRows]
  exact ⟨h1, h2, h3⟩

theorem ensure_table_go_db (s : Sys) :
    (ensure_table_go s).db =
      if (if s.tableExists then s.db else []).isEmpty then seedRows
      else if s.tableExists then s.db else [] := rfl

theorem ensure_table_lookup_none (env : Env) (s : Sys) (id : Int)
    (h : lookupA s.db id = none) (h1 : id ≠ 1) (h2 : id ≠ 2) (h3 : id ≠ 3) :
    lookupA (ensure_table env s).1.db id = none := by
  have hseed := lookupA_seedRows_none id h1 h2 h3
  by_cases hr : s.tableReady = true
  · rw [ensure_table_of_ready env s hr]; exact h
  · by_cases hc : get_db_connection env = true
    · by_cases hf : env.dbOpFails = true
      · rw [ensure_table_fail env s (Or.inr hf)]; exact h
      · rw [ensure_table_success env s (by simpa using hr) hc (by simpa using hf),
            ensure_table_go_db]
        by_cases hex : s.tableExists = true
        · by_cases hemp : s.db.isEmpty = true
          · simp [hex, hemp, hseed]
          · simp [hex, hemp, h]
        · simp [hex, hseed]
    · rw [ensure_table_fail env s (Or.inl (by simpa using hc))]; exact h

theorem ensure_table_foldl_ready (envs : List Env) (s : Sys) (h : s.tableReady = true) :
    envs.foldl (fun st e => (ensure_table e st).1) s = s := by
  induction envs with
  | nil => rfl
  | cons e envs ih =>
    simp only [List.foldl_cons, ensure_table_of_ready e s h]
    exact ih

/-! ### Lemmas about the handlers -/

theorem create_data_spec (env : Env) (s : Sys) (id : Int) (v : String)
    (hc : get_db_connection env = true) (hf : env.dbOpFails = false)
    (hs : s.tableReady = true → s.tableExists = true)
    (hro : get_redis_client env = true → env.redisOpFails = false) :
    (create_data env s id v).1 = Resp.item id v "database" (some "created") ∧
    lookupA (create_data env s id v).2.db id = some v ∧
    (create_data env s id v).2.tableReady = true ∧
    (create_data env s id v).2.tableExists = true ∧
    (get_redis_client env = true →
      lookupC (create_data env s id v).2.cache (itemKey id) = some v) := by
  obtain ⟨hready, hex⟩ := ensure_table_post env s hc hf hs
  unfold create_data
  by_cases hr : get_redis_client env = true
  · simp [hc, hf, hex, hr, hro hr, lookupA_upsert_self, lookupC_upsertC_self, hready]
  · simp [hc, hf, hex, hr, lookupA_upsert_self, hready]

theorem get_data_cache_hit (env : Env) (s : Sys) (id : Int) (c : String)
    (hr : get_redis_client env = true) (hro : env.redisOpFails = false)
    (hready : s.tableReady = true)
    (hcache : lookupC s.cache (itemKey id) = some c) (hne : c ≠ "") :
    (get_data env s id).1 = Resp.item id c "redis" none := by
  unfold get_data
  rw [ensure_table_of_ready env s hready]
  simp [hr, hro, hcache, hne]

theorem get_data_db_hit (env : Env) (s1 : Sys) (r : Bool) (id : Int) (v : String)
    (hc : get_db_connection env = true) (hf : env.dbOpFails = false)
    (hex : s1.tableExists = true) (hl : lookupA s1.db id = some v)
    (hro : r = true → env.redisOpFails = false) :
    (get_data_db env s1 r id).1 = Resp.item id v "database" none := by
  unfold get_data_db
  by_cases hr : r = true
  · simp [hc, hf, hex, hl, hr, hro hr]
  · simp [hc, hf, hex, hl, hr]

theorem get_data_db_cache_change (env : Env) (s1 : Sys) (r : Bool) (id : Int)
    (h : (get_data_db env s1 r id).2.cache ≠ s1.cache) :
    ∃ v, (get_data_db env s1 r id).1 = Resp.item id v "database" none ∧
         lookupA (get_data_db env s1 r id).2.db id = some v ∧
         lookupC (get_data_db env s1 r id).2.cache (itemKey id) = some v := by
  unfold get_data_db at *
  by_cases hc : get_db_connection env = true
  · by_cases hf : (env.dbOpFails || !s1.tableExists) = true
    · simp [hc, hf] at h
    · cases hl : lookupA s1.db id with
      | none => simp [hc, hf, hl] at h
      | some v =>
        by_cases hr : r = true
        · by_cases hro : env.redisOpFails = true
          · simp [hc, hf, hl, hr, hro] at h
          · refine ⟨v, ?_⟩
            simp [hc, hf, hl, hr, hro, lookupC_upsertC_self]
        · simp [hc, hf, hl, hr] at h
  · simp [hc] at h

theorem get_data_cache_change (env : Env) (s : Sys) (id : Int)
    (h : (get_data env s id).2.cache ≠ s.cache) :
    ∃ v, (get_data env s id).1 = Resp.item id v "database" none ∧
         lookupA (get_data env s id).2.db id = some v ∧
         lookupC (get_data env s id).2.cache (itemKey id) = some v := by
  have hec : (ensure_table env s).1.cache = s.cache := ensure_table_cache env s
  have hgd : get_data env s id =
      get_data_db env (ensure_table env s).1 (get_redis_client env) id ∨
      (get_data env s id).2.cache = s.cache := by
    unfold get_data
    by_cases hr : get_redis_client env = true
    · by_cases hro : env.redisOpFails = true
      · right; simp [hr, hro, hec]
      · cases hcc : lookupC (ensure_table env s).1.cache (itemKey id) with
        | none => left; simp [hr, hro, hcc]
        | some c =>
          have hcc2 : lookupC s.cache (itemKey id) = some c := by
            rw [← hec]; exact hcc
          by_cases hce : c = ""
          · left; simp [hr, hro, hcc, hcc2, hce]
          · right; simp [hr, hro, hcc, hcc2, hce, hec]
    · left; simp [hr]
  rcases hgd with hgd | hgd
  · rw [hgd] at h ⊢
    exact get_data_db_cache_change env _ _ id (by rw [hec]; exact h)
  · exact absurd hgd h

theorem create_data_cache_change (env : Env) (s : Sys) (id : Int) (v : String)
    (h : (create_data env s id v).2.cache ≠ s.cache) :
    (create_data env s id v).1 = Resp.item id v "database" (some "created") ∧
    lookupA (create_data env s id v).2.db id = some v := by
  have hec : (ensure_table env s).1.cache = s.cache := ensure_table_cache env s
  unfold create_data at *
  by_cases hc : (!get_db_connection env) = true
  · rw [if_pos hc] at h
    exact absurd hec h
  · rw [if_neg hc] at h ⊢
    by_cases hf : (env.dbOpFails || !(ensure_table env s).1.tableExists) = true
    · rw [if_pos hf] at h
      exact absurd hec h
    · rw [if_neg hf] at h ⊢
      by_cases hr : get_redis_client env = true
      · by_cases hro : env.redisOpFails = true
        · rw [if_pos hr, if_pos hro] at h
          exact absurd hec h
        · rw [if_pos hr, if_neg hro]
          exact ⟨rfl, by simpa using lookupA_upsert_self (ensure_table env s).1.db id v⟩
      · rw [if_neg hr] at h
        exact absurd hec h

/-! ### Invariants of the concurrent initialization model -/

theorem lookupA_append_none (l1 l2 : List (Int × String)) (k : Int)
    (h : lookupA (l1 ++ l2) k = none) : lookupA l1 k = none := by
  rw [lookupA_append] at h
  cases hl : lookupA l1 k with
  | none => rfl
  | some v => rw [hl] at h; exact Option.noConfusion h

theorem seedFold_inv (ps : List (Int × String)) (rows : List (Int × String))
    (log : List Int) (hnd : log.Nodup)
    (hpres : ∀ id ∈ log, (lookupA rows id).isSome)
    (hkeys : (rows.map Prod.fst).Nodup) :
    (ps.foldl seedFoldStep (rows, log)).2.Nodup ∧
    (∀ id ∈ (ps.foldl seedFoldStep (rows, log)).2,
      (lookupA (ps.foldl seedFoldStep (rows, log)).1 id).isSome) ∧
    ((ps.foldl seedFoldStep (rows, log)).1.map Prod.fst).Nodup ∧
    (∀ id ∈ (ps.foldl seedFoldStep (rows, log)).2, id ∈ log ∨ id ∈ ps.map Prod.fst) ∧
    (∀ id ∈ (ps.foldl seedFoldStep (rows, log)).2, id ∈ log ∨ lookupA rows id = none) ∧
    (∀ id, (lookupA rows id).isSome → (lookupA (ps.foldl seedFoldStep (rows, log)).1 id).isSome) := by
  induction ps generalizing rows log with
  | nil =>
    refine ⟨hnd, ?_, hkeys, ?_, ?_, ?_⟩ <;> simp_all
  | cons p ps ih =>
    by_cases hp : (lookupA rows p.1).isSome = true
    · have hstep : seedFoldStep (rows, log) p = (rows, log) := by
        simp [seedFoldStep, insertIfAbsent_of_present rows p.1 p.2 hp]
      rw [List.foldl_cons, hstep]
      obtain ⟨c1, c2, c3, c4, c5, c6⟩ := ih rows log hnd hpres hkeys
      refine ⟨c1, c2, c3, ?_, c5, c6⟩
      intro id hid
      rcases c4 id hid with hin | hin
      · exact Or.inl hin
      · exact Or.inr (by simp [hin])
    · have hpn : lookupA rows p.1 = none := by
        cases hl : lookupA rows p.1 with
        | none => rfl
        | some v => rw [hl] at hp; simp at hp
      have hstep : seedFoldStep (rows, log) p = (rows ++ [(p.1, p.2)], log ++ [p.1]) := by
        simp [seedFoldStep, insertIfAbsent_of_absent rows p.1 p.2 hpn]
      rw [List.foldl_cons, hstep]
      have hnotin : p.1 ∉ log := by
        intro hmem
        have hsome := hpres p.1 hmem
        rw [hpn] at hsome
        simp at hsome
      have hnd2 : (log ++ [p.1]).Nodup := by
        rw [List.nodup_append]
        refine ⟨hnd, List.nodup_singleton _, ?_⟩
        intro a ha hb
        have hap : a = p.1 := by simpa using hb
        exact hnotin (hap ▸ ha)
      have hpres2 : ∀ id ∈ log ++ [p.1], (lookupA (rows ++ [(p.1, p.2)]) id).isSome := by
        intro id hid
        rcases List.mem_append.mp hid with hid | hid
        · exact lookupA_isSome_append rows _ id (hpres id hid)
        · have hidp : id = p.1 := by simpa using hid
          rw [hidp, lookupA_append, hpn]
          simp [lookupA, List.find?]
      have hkeys2 : ((rows ++ [(p.1, p.2)]).map Prod.fst).Nodup := by
        rw [List.map_append, List.nodup_append]
        refine ⟨hkeys, by simp, ?_⟩
        intro a ha hb
        have hap : a = p.1 := by simpa using hb
        exact ((lookupA_eq_none_iff rows p.1).mp hpn) (hap ▸ ha)
      obtain ⟨c1, c2, c3, c4, c5, c6⟩ := ih (rows ++ [(p.1, p.2)]) (log ++ [p.1]) hnd2 hpres2 hkeys2
      refine ⟨c1, c2, c3, ?_, ?_, ?_⟩
      · intro id hid
        rcases c4 id hid with hin | hin
        · rcases List.mem_append.mp hin with hin | hin
          · exact Or.inl hin
          · exact Or.inr (by simp [show id = p.1 from by simpa using hin])
        · exact Or.inr (by simp [hin])
      · intro id hid
        rcases c5 id hid with hin | hin
        · rcases List.mem_append.mp hin with hin | hin
          · exact Or.inl hin
          · have : id = p.1 := by simpa using hin
            subst this
            exact Or.inr hpn
        · exact Or.inr (lookupA_append_none rows _ id hin)
      · intro id hid
        exact c6 id (lookupA_isSome_append rows _ id hid)

theorem seedInsert_spec (rows : List (Int × String))
    (hkeys : (rows.map Prod.fst).Nodup) :
    (seedInsert rows).2.Nodup ∧
    (∀ id ∈ (seedInsert rows).2, (lookupA (seedInsert rows).1 id).isSome) ∧
    ((seedInsert rows).1.map Prod.fst).Nodup ∧
    (∀ id ∈ (seedInsert rows).2, id = 1 ∨ id = 2 ∨ id = 3) ∧
    (∀ id ∈ (seedInsert rows).2, lookupA rows id = none) ∧
    (∀ id, (lookupA rows id).isSome → (lookupA (seedInsert rows).1 id).isSome) := by
  obtain ⟨c1, c2, c3, c4, c5, c6⟩ :=
    seedFold_inv seedRows rows [] List.nodup_nil (by simp) hkeys
  refine ⟨c1, c2, c3, ?_, ?_, c6⟩
  · intro id hid
    rcases c4 id hid with hin | hin
    · simp at hin
    · simpa [seedRows] using hin
  · intro id hid
    rcases c5 id hid with hin | hin
    · simp at hin
    · exact hin

theorem istep_inv (st : IState) (i : Nat) (b : Bool) (h : IInv st) :
    IInv (istep st i b) := by
  unfold istep
  cases hpc : st.pcs.get? i with
  | none => exact h
  | some pc =>
    cases pc with
    | start =>
      by_cases hf : st.flag = true
      · simp only [hf, if_true]
        exact h
      · simp [hf]
        by_cases hb : b = true
        · simp [hb]; exact h
        · simp [hb]; exact h
    | connected => exact h
    | created => exact h
    | counted n =>
      by_cases hn : n = 0
      · subst hn
        show IInv
          { flag := st.flag, tableExists := st.tableExists,
            rows := (seedInsert st.rows).1,
            insertedIds := st.insertedIds ++ (seedInsert st.rows).2,
            seedStmtExecs := st.seedStmtExecs + 1,
            pcs := st.pcs.set i Pc.inserted }
        obtain ⟨h1, h2, h3, h4⟩ := h
        obtain ⟨c1, c2, c3, c4, c5, c6⟩ := seedInsert_spec st.rows h3
        refine ⟨?_, ?_, c3, ?_⟩
        · rw [List.nodup_append]
          refine ⟨h1, c1, ?_⟩
          intro id hid hid2
          have hsome := h2 id hid
          rw [c5 id hid2] at hsome
          simp at hsome
        · intro id hid
          rcases List.mem_append.mp hid with hid | hid
          · exact c6 id (h2 id hid)
          · exact c2 id hid
        · intro id hid
          rcases List.mem_append.mp hid with hid | hid
          · exact h4 id hid
          · exact c4 id hid
      · simp [hn]; exact h
    | inserted => exact h
    | done => exact h

theorem irun_inv (sched : List (Nat × Bool)) (st : IState) (h : IInv st) :
    IInv (irun sched st) := by
  induction sched generalizing st with
  | nil => exact h
  | cons q sched ih =>
    exact ih (istep st q.1 q.2) (istep_inv st q.1 q.2 h)

theorem iinit_inv (n : Nat) : IInv (iinit n) := by
  refine ⟨List.nodup_nil, ?_, ?_, ?_⟩ <;> simp [iinit]

/-! ### Lemmas about `startup` -/

theorem startupGo_bound (l : List Env) (s : Sys) :
    (startupGo l s).2.1 ≤ l.length ∧
    ((startupGo l s).2.2 = 3 * (startupGo l s).2.1 ∨
     (startupGo l s).2.2 + 3 = 3 * (startupGo l s).2.1) := by
  induction l generalizing s with
  | nil => simp [startupGo]
  | cons e l ih =>
    by_cases hc : get_db_connection e = true
    · unfold startupGo
      rw [if_pos hc]
      exact ⟨Nat.succ_le_succ (Nat.zero_le _), Or.inr (by norm_num)⟩
    · unfold startupGo
      rw [if_neg hc]
      obtain ⟨ih1, ih2⟩ := ih s
      show (startupGo l s).2.1 + 1 ≤ l.length + 1 ∧
        ((startupGo l s).2.2 + 3 = 3 * ((startupGo l s).2.1 + 1) ∨
         (startupGo l s).2.2 + 3 + 3 = 3 * ((startupGo l s).2.1 + 1))
      refine ⟨Nat.succ_le_succ ih1, ?_⟩
      rcases ih2 with h2 | h2
      · exact Or.inl (by omega)
      · exact Or.inr (by omega)

theorem startupGo_all_fail (l : List Env) (s : Sys)
    (h : ∀ e ∈ l, get_db_connection e = false) : (startupGo l s).1 = s := by
  induction l with
  | nil => rfl
  | cons e l ih =>
    unfold startupGo
    rw [if_neg (by simp [h e (List.mem_cons_self e l)])]
    exact ih (fun x hx => h x (List.mem_cons_of_mem e hx))

theorem get_data_no_redis (env : Env) (s : Sys) (id : Int)
    (hr : get_redis_client env = false) :
    get_data env s id = get_data_db env (ensure_table env s).1 false id := by
  unfold get_data
  simp [hr]

theorem get_data_shape (env : Env) (s : Sys) (id : Int) :
    get_data env s id =
      get_data_db env (ensure_table env s).1 (get_redis_client env) id ∨
    (get_data env s id).1 = Resp.exn "redis operation failed" ∨
    (∃ c, lookupC (ensure_table env s).1.cache (itemKey id) = some c ∧ c ≠ "" ∧
      get_data env s id = (Resp.item id c "redis" none, (ensure_table env s).1)) := by
  unfold get_data
  by_cases hr : get_redis_client env = true
  · by_cases hro : env.redisOpFails = true
    · right; left; simp [hr, hro]
    · cases hcc : lookupC (ensure_table env s).1.cache (itemKey id) with
      | none => left; simp [hr, hro, hcc]
      | some c =>
        by_cases hce : c = ""
        · left; simp [hr, hro, hcc, hce]
        · right; right; exact ⟨c, rfl, hce, by simp [hr, hro, hcc, hce]⟩
  · left; simp [hr]

theorem get_data_db_never_redis (env : Env) (s1 : Sys) (r : Bool) (id : Int) :
    ∀ i v a, (get_data_db env s1 r id).1 ≠ Resp.item i v "redis" a := by
  intro i v a heq
  unfold get_data_db at heq
  by_cases hc : get_db_connection env = true
  · by_cases hf : (env.dbOpFails || !s1.tableExists) = true
    · simp [hc, hf] at heq
    · cases hl : lookupA s1.db id with
      | none => simp [hc, hf, hl] at heq
      | some w =>
        by_cases hrt : r = true
        · by_cases hro : env.redisOpFails = true
          · simp [hc, hf, hl, hrt, hro] at heq
          · simp [hc, hf, hl, hrt, hro] at heq
        · simp [hc, hf, hl, hrt] at heq
  · simp [hc] at heq

/-!
## The claims

The provenance names `cache`/`store` of the spec are the literal strings
`"redis"`/`"database"`.
-/

/-- Claim C1 (confirmed): read-after-write round trip.  Under the conditions
that make a write succeed (store connection obtained, statements succeed, and
an obtained cache client does not raise — unchanged for the immediately
following read), `create_data(id, v)` with non-empty `v` returns the persisted
item, and `get_data(id)` right after returns the same value with provenance
`"redis"` or `"database"` (the cache/store provenance values of the code). -/
theorem C1_read_after_write_roundtrip (env : Env) (s : Sys) (id : Int) (v : String)
    (hv : v ≠ "") (hc : get_db_connection env = true) (hf : env.dbOpFails = false)
    (hs : s.tableReady = true → s.tableExists = true)
    (hro : get_redis_client env = true → env.redisOpFails = false) :
    (create_data env s id v).1 = Resp.item id v "database" (some "created") ∧
    ∃ src, (get_data env (create_data env s id v).2 id).1 = Resp.item id v src none ∧
      (src = "redis" ∨ src = "database") := by
  obtain ⟨h1, h2, h3, h4, h5⟩ := create_data_spec env s id v hc hf hs hro
  refine ⟨h1, ?_⟩
  by_cases hr : get_redis_client env = true
  · exact ⟨"redis", get_data_cache_hit env _ id v hr (hro hr) h3 (h5 hr) hv, Or.inl rfl⟩
  · refine ⟨"database", ?_, Or.inr rfl⟩
    have hrf : get_redis_client env = false := by
      cases hgr : get_redis_client env
      · rfl
      · exact absurd hgr hr
    have hgd : get_data env (create_data env s id v).2 id
        = get_data_db env (create_data env s id v).2 false id := by
      rw [get_data_no_redis env _ id hrf, ensure_table_of_ready env _ h3]
    rw [hgd]
    exact get_data_db_hit env _ false id v hc hf h4 h2 (fun hh => absurd hh (by decide))

theorem C1_witness :
    (create_data envGood s0 7 "hi").1 = Resp.item 7 "hi" "database" (some "created") ∧
    ∃ src, (get_data envGood (create_data envGood s0 7 "hi").2 7).1 =
        Resp.item 7 "hi" src none ∧ (src = "redis" ∨ src = "database") :=
  C1_read_after_write_roundtrip envGood s0 7 "hi" (by decide) rfl rfl
    (fun h => nomatch h) (fun _ => rfl)

/-- Claim C2 counterexample: with a cache client that connects and pings but
whose `get` raises, `get_data` does not absorb the failure and fall back to the
store — the exception escapes the handler and the caller sees a 500.  This
refutes "any failure of the cache layer never propagates as an error result". -/
theorem C2_counterexample :
    (get_data envRedisOpFail sReady 1).1 = Resp.exn "redis operation failed" ∧
    respStatus (get_data envRedisOpFail sReady 1).1 = 500 ∧
    lookupA sReady.db 1 = some "Hello from PostgreSQL!" :=
  ⟨rfl, rfl, rfl⟩

/-- Claim C2 (amended): connection-level cache failures (unset `REDIS_HOST`,
connection or ping failure) are absorbed — `get_redis_client` returns `None`
and both handlers complete using the store alone.  But an error raised by a
cache `get`/`setex` on an obtained client propagates: `get_data` raises (500),
and `create_data` answers 500 even though the store write already committed. -/
theorem C2_cache_conn_failures_absorbed (env : Env) (s : Sys) (id : Int) (v : String) :
    (get_redis_client env = false → get_db_connection env = true →
      env.dbOpFails = false → s.tableReady = true → s.tableExists = true →
      lookupA s.db id = some v →
      (get_data env s id).1 = Resp.item id v "database" none) ∧
    (get_redis_client env = false → get_db_connection env = true →
      env.dbOpFails = false → (s.tableReady = true → s.tableExists = true) →
      (create_data env s id v).1 = Resp.item id v "database" (some "created")) ∧
    (get_redis_client env = true → env.redisOpFails = true →
      (get_data env s id).1 = Resp.exn "redis operation failed" ∧
      respStatus (get_data env s id).1 = 500) ∧
    (get_redis_client env = true → env.redisOpFails = true →
      get_db_connection env = true → env.dbOpFails = false →
      (s.tableReady = true → s.tableExists = true) →
      (create_data env s id v).1 = Resp.jsonError 500 "redis operation failed" ∧
      lookupA (create_data env s id v).2.db id = some v) := by
  refine ⟨?_, ?_, ?_, ?_⟩
  · intro hr hc hf hready hex hl
    have hgd : get_data env s id = get_data_db env s false id := by
      rw [get_data_no_redis env s id hr, ensure_table_of_ready env s hready]
    rw [hgd]
    exact get_data_db_hit env s false id v hc hf hex hl (fun hh => absurd hh (by decide))
  · intro hr hc hf hs
    exact (create_data_spec env s id v hc hf hs
      (fun hh => absurd hh (by simp [hr]))).1
  · intro hr hro
    constructor
    · unfold get_data
      simp [hr, hro]
    · unfold get_data respStatus
      simp [hr, hro]
  · intro hr hro hc hf hs
    obtain ⟨hready, hex⟩ := ensure_table_post env s hc hf hs
    unfold create_data
    simp [hc, hf, hex, hr, hro, lookupA_upsert_self]

theorem C2_witness :
    (get_data envNoRedis sReady 1).1 =
      Resp.item 1 "Hello from PostgreSQL!" "database" none ∧
    (get_data envRedisOpFail sReady 1).1 = Resp.exn "redis operation failed" :=
  ⟨(C2_cache_conn_failures_absorbed envNoRedis sReady 1 "Hello from PostgreSQL!").1
      rfl rfl rfl rfl rfl rfl,
   ((C2_cache_conn_failures_absorbed envRedisOpFail sReady 1 "x").2.2.1 rfl rfl).1⟩

/-- Claim C3 counterexample: when the store connection cannot be established,
`get_data` returns the plain dict `{"error": "database unavailable"}`, which
FastAPI serves with status 200 — not a 5xx-equivalent status as claimed. -/
theorem C3_counterexample :
    (get_data envDbDown s0 7).1 = Resp.errorBody "database unavailable" ∧
    respStatus (get_data envDbDown s0 7).1 = 200 :=
  ⟨rfl, rfl⟩

/-- Claim C3 (amended): when the store is unreachable, `get_data` returns the
explicit error body `{"error": "database unavailable"}` — never a silent empty
success and never a false not-found — but with HTTP status 200 rather than a
5xx status; a store operation error after connecting propagates out of the
handler as an unhandled exception (500), reported rather than swallowed. -/
theorem C3_store_unavailable_read (env : Env) (s : Sys) (id : Int) :
    (get_db_connection env = false → get_redis_client env = false →
      (get_data env s id).1 = Resp.errorBody "database unavailable" ∧
      respStatus (get_data env s id).1 = 200) ∧
    (get_db_connection env = true → env.dbOpFails = true →
      get_redis_client env = false →
      (get_data env s id).1 = Resp.exn "db operation failed" ∧
      respStatus (get_data env s id).1 = 500) := by
  constructor
  · intro hc hr
    rw [get_data_no_redis env s id hr]
    unfold get_data_db
    simp [hc, respStatus]
  · intro hc hf hr
    rw [get_data_no_redis env s id hr]
    unfold get_data_db
    simp [hc, hf, respStatus]

theorem C3_witness :
    (get_data envDbDown sReady 7).1 = Resp.errorBody "database unavailable" ∧
    respStatus (get_data envDbDown sReady 7).1 = 200 :=
  (C3_store_unavailable_read envDbDown sReady 7).1 rfl rfl

/-- Claim C4 counterexample: `ensure_table` takes no lock, so two concurrent
first callers are not serialized.  Under the schedule `sched2`, after six steps
both callers sit inside the critical section of the initializer (both have connected,
created and counted, and both observed `COUNT(*) = 0`), and over the full
schedule the seed `INSERT` statement executes twice — there is no
mutual-exclusion mechanism.  (The row-level effects still happen once: the
insertion log is exactly `[1, 2, 3]`.) -/
theorem C4_counterexample :
    activeCount (irun (sched2.take 6) (iinit 2)) = 2 ∧
    (irun (sched2.take 6) (iinit 2)).pcs = [Pc.counted 0, Pc.counted 0] ∧
    (irun sched2 (iinit 2)).seedStmtExecs = 2 ∧
    (irun sched2 (iinit 2)).insertedIds = [1, 2, 3] :=
  ⟨rfl, rfl, rfl, rfl⟩

/-- Claim C4 (amended): the initialization effects are at most once in total —
for every schedule of arbitrarily many concurrent first callers, the log of
seed rows actually inserted has no duplicates, contains only the seed ids 1, 2,
3, every logged id is present in the final table, and the table never holds a
duplicate id.  This holds because the SQL statements are conditional
(`IF NOT EXISTS`, count guard, `ON CONFLICT DO NOTHING`), not because callers
are serialized: the code has no mutual-exclusion mechanism (see the
counterexample). -/
theorem C4_seed_effects_at_most_once (sched : List (Nat × Bool)) (n : Nat) :
    (irun sched (iinit n)).insertedIds.Nodup ∧
    (∀ id ∈ (irun sched (iinit n)).insertedIds, id = 1 ∨ id = 2 ∨ id = 3) ∧
    ((irun sched (iinit n)).rows.map Prod.fst).Nodup ∧
    (∀ id ∈ (irun sched (iinit n)).insertedIds,
      (lookupA (irun sched (iinit n)).rows id).isSome) := by
  obtain ⟨h1, h2, h3, h4⟩ := irun_inv sched (iinit n) (iinit_inv n)
  exact ⟨h1, h4, h3, h2⟩

theorem C4_witness :
    (irun sched2 (iinit 2)).insertedIds.Nodup ∧
    (∀ id ∈ (irun sched2 (iinit 2)).insertedIds, id = 1 ∨ id = 2 ∨ id = 3) ∧
    ((irun sched2 (iinit 2)).rows.map Prod.fst).Nodup ∧
    (∀ id ∈ (irun sched2 (iinit 2)).insertedIds,
      (lookupA (irun sched2 (iinit 2)).rows id).isSome) :=
  C4_seed_effects_at_most_once sched2 2

/-- Claim C5 (confirmed): the `_table_ready` flag is monotone.  When it is set,
`ensure_table` returns immediately with no store I/O; the flag stays set; it
becomes set only after a fully successful run (connection obtained and no
statement raised); on failure the state is unchanged (still unset, retryable,
and a later successful call sets it); and it never regresses over any sequence
of calls for the life of the process. -/
theorem C5_init_state_monotone :
    (∀ env s, s.tableReady = true → ensure_table env s = (s, [])) ∧
    (∀ env s, s.tableReady = true → (ensure_table env s).1.tableReady = true) ∧
    (∀ env s, (ensure_table env s).1.tableReady = true →
      s.tableReady = true ∨ (get_db_connection env = true ∧ env.dbOpFails = false)) ∧
    (∀ env s, get_db_connection env = false ∨ env.dbOpFails = true →
      (ensure_table env s).1 = s) ∧
    (∀ env s, s.tableReady = false → get_db_connection env = true →
      env.dbOpFails = false → (ensure_table env s).1.tableReady = true) ∧
    (∀ (envs : List Env) (s : Sys), s.tableReady = true →
      envs.foldl (fun st e => (ensure_table e st).1) s = s) :=
  ⟨ensure_table_of_ready, ensure_table_ready_mono, ensure_table_ready_cases,
   ensure_table_fail,
   fun env s hr hc hf => by rw [ensure_table_success env s hr hc hf]; rfl,
   ensure_table_foldl_ready⟩

theorem C5_witness :
    ensure_table envDbDown sReady = (sReady, []) ∧
    (ensure_table envGood s0).1.tableReady = true ∧
    (ensure_table envDbDown s0).1 = s0 ∧
    List.foldl (fun st e => (ensure_table e st).1) sReady [envDbDown, envGood] = sReady :=
  ⟨C5_init_state_monotone.1 envDbDown sReady rfl,
   C5_init_state_monotone.2.2.2.2.1 envGood s0 rfl rfl rfl,
   C5_init_state_monotone.2.2.2.1 envDbDown s0 (Or.inl rfl),
   C5_init_state_monotone.2.2.2.2.2 [envDbDown, envGood] sReady rfl⟩

/-- Claim C6 counterexample: `ItemCreate` only enforces the field types
(`id: int`, `value: str`); there is no positivity or non-emptiness check
anywhere.  A write with id 0 and empty value is not rejected: it reaches the
store, the row is persisted, and the handler answers success — refuting
"rejected with a ValidationError before any backing-store or cache access". -/
theorem C6_counterexample :
    (create_data envGood sReady 0 "").1 = Resp.item 0 "" "database" (some "created") ∧
    lookupA (create_data envGood sReady 0 "").2.db 0 = some "" ∧
    lookupC (create_data envGood sReady 0 "").2.cache (itemKey 0) = some "" :=
  ⟨rfl, rfl, rfl⟩

/-- Claim C6 (amended): only pydantic type validation happens before the
handler runs; a non-positive id or an empty value passes validation, the
write performs the store upsert and succeeds like any other — no
`ValidationError` exists in the code. -/
theorem C6_no_value_validation (env : Env) (s : Sys) (id : Int) (v : String)
    (hbad : id ≤ 0 ∨ v = "")
    (hc : get_db_connection env = true) (hf : env.dbOpFails = false)
    (hs : s.tableReady = true → s.tableExists = true)
    (hro : get_redis_client env = true → env.redisOpFails = false) :
    (create_data env s id v).1 = Resp.item id v "database" (some "created") ∧
    lookupA (create_data env s id v).2.db id = some v := by
  obtain ⟨h1, h2, _⟩ := create_data_spec env s id v hc hf hs hro
  exact ⟨h1, h2⟩

theorem C6_witness :
    (0 : Int) ≤ 0 ∧
    (create_data envNoRedis sReady 0 "").1 = Resp.item 0 "" "database" (some "created") ∧
    lookupA (create_data envNoRedis sReady 0 "").2.db 0 = some "" :=
  ⟨le_refl 0,
   C6_no_value_validation envNoRedis sReady 0 "" (Or.inl (le_refl 0)) rfl rfl
     (fun _ => rfl) (fun hh => absurd hh (by decide))⟩

/-- Claim C7 counterexample: id 5 already exists with value `"old"`, yet the
write of `"new"` to id 5 is answered with `action: "created"` — the code
hard-codes `"created"` and never reports `"updated"` for an upsert of an
existing id. -/
theorem C7_counterexample :
    lookupA sExisting.db 5 = some "old" ∧
    (create_data envNoRedis sExisting 5 "new").1 =
      Resp.item 5 "new" "database" (some "created") ∧
    lookupA (create_data envNoRedis sExisting 5 "new").2.db 5 = some "new" :=
  ⟨rfl, rfl, rfl⟩

/-- Claim C7 (amended): every successful write returns the persisted item with
`source: "database"` and `action: "created"` unconditionally — the action field
does not distinguish creation from update. -/
theorem C7_action_always_created (env : Env) (s : Sys) (id : Int) (v : String)
    (hc : get_db_connection env = true) (hf : env.dbOpFails = false)
    (hs : s.tableReady = true → s.tableExists = true)
    (hro : get_redis_client env = true → env.redisOpFails = false) :
    (create_data env s id v).1 = Resp.item id v "database" (some "created") ∧
    lookupA (create_data env s id v).2.db id = some v := by
  obtain ⟨h1, h2, _⟩ := create_data_spec env s id v hc hf hs hro
  exact ⟨h1, h2⟩

theorem C7_witness :
    lookupA sExisting.db 5 = some "old" ∧
    (create_data envNoRedis sExisting 5 "new").1 =
      Resp.item 5 "new" "database" (some "created") :=
  ⟨rfl,
   (C7_action_always_created envNoRedis sExisting 5 "new" rfl rfl
     (fun _ => rfl) (fun hh => absurd hh (by decide))).1⟩

/-- Claim C8 (confirmed): cache population only follows the store.  A read of a
never-written non-seed id returns the not-found body and leaves the cache
untouched; and whenever `get_data` or `create_data` changes the cache at all,
the response is a successful store hit/write and the store holds the cached
value for that id. -/
theorem C8_cache_population_follows_store (env : Env) (s : Sys) (id : Int) (v : String) :
    ((id ≠ 1 ∧ id ≠ 2 ∧ id ≠ 3) → lookupA s.db id = none →
      lookupC s.cache (itemKey id) = none →
      get_db_connection env = true → env.dbOpFails = false →
      env.redisOpFails = false → (s.tableReady = true → s.tableExists = true) →
      (get_data env s id).1 = Resp.errorBody "item not found" ∧
      (get_data env s id).2.cache = s.cache) ∧
    ((get_data env s id).2.cache ≠ s.cache →
      ∃ w, (get_data env s id).1 = Resp.item id w "database" none ∧
        lookupA (get_data env s id).2.db id = some w ∧
        lookupC (get_data env s id).2.cache (itemKey id) = some w) ∧
    ((create_data env s id v).2.cache ≠ s.cache →
      (create_data env s id v).1 = Resp.item id v "database" (some "created") ∧
      lookupA (create_data env s id v).2.db id = some v) := by
  refine ⟨?_, get_data_cache_change env s id, create_data_cache_change env s id v⟩
  intro hid hdb hcache hc hf hro hinv
  obtain ⟨hready, hex⟩ := ensure_table_post env s hc hf hinv
  have hlook : lookupA (ensure_table env s).1.db id = none :=
    ensure_table_lookup_none env s id hdb hid.1 hid.2.1 hid.2.2
  have hecache : (ensure_table env s).1.cache = s.cache := ensure_table_cache env s
  have hcc : lookupC (ensure_table env s).1.cache (itemKey id) = none := by
    rw [hecache]; exact hcache
  unfold get_data get_data_db
  by_cases hr : get_redis_client env = true
  · simp [hr, hro, hcc, hcache, hc, hf, hex, hlook, hecache]
  · simp [hr, hc, hf, hex, hlook, hecache]

theorem C8_witness :
    (get_data envGood sReady 42).1 = Resp.errorBody "item not found" ∧
    (get_data envGood sReady 42).2.cache = sReady.cache ∧
    ((get_data envGood sReady 1).2.cache ≠ sReady.cache →
      ∃ w, (get_data envGood sReady 1).1 = Resp.item 1 w "database" none ∧
        lookupA (get_data envGood sReady 1).2.db 1 = some w ∧
        lookupC (get_data envGood sReady 1).2.cache (itemKey 1) = some w) := by
  have h1 := (C8_cache_population_follows_store envGood sReady 42 "w").1
    ⟨by decide, by decide, by decide⟩ rfl rfl rfl rfl rfl (fun _ => rfl)
  exact ⟨h1.1, h1.2, (C8_cache_population_follows_store envGood sReady 1 "w").2.1⟩

/-- Claim C9 (confirmed): the startup initializer is bounded and non-fatal.
For every sequence of per-attempt environments, it makes at most 5 attempts,
every backoff between attempts is the fixed 3 seconds (total sleep `3a` after
`a` failures, `3(a-1)` when the last attempt connected), hence at most 15
seconds — and when every attempt fails it simply returns with the state
unchanged, letting the process continue serving. -/
theorem C9_startup_bounded (envs : List Env) (s : Sys) :
    (startup envs s).2.1 ≤ 5 ∧
    ((startup envs s).2.2 = 3 * (startup envs s).2.1 ∨
     (startup envs s).2.2 + 3 = 3 * (startup envs s).2.1) ∧
    (startup envs s).2.2 ≤ 15 ∧
    ((∀ e ∈ envs, get_db_connection e = false) → (startup envs s).1 = s) := by
  unfold startup
  obtain ⟨h1, h2⟩ := startupGo_bound (envs.take 5) s
  have hlen : (envs.take 5).length ≤ 5 := by
    rw [List.length_take]
    exact Nat.min_le_left _ _
  refine ⟨le_trans h1 hlen, h2, ?_, ?_⟩
  · rcases h2 with h2 | h2 <;> omega
  · intro hall
    exact startupGo_all_fail (envs.take 5) s
      (fun e he => hall e (List.take_subset 5 envs he))

theorem C9_witness :
    (startup (List.replicate 9 envDbDown) s0).2.1 ≤ 5 ∧
    (startup (List.replicate 9 envDbDown) s0).2.2 ≤ 15 ∧
    (startup (List.replicate 9 envDbDown) s0).1 = s0 :=
  ⟨(C9_startup_bounded (List.replicate 9 envDbDown) s0).1,
   (C9_startup_bounded (List.replicate 9 envDbDown) s0).2.2.1,
   (C9_startup_bounded (List.replicate 9 envDbDown) s0).2.2.2
     (fun e he => by rw [List.eq_of_mem_replicate he]; rfl)⟩

/-- Claim C10 counterexample: the claim's universal "every read of an
empty-string item falls through to the store, so source is never the cache" is
false on a reachable state.  A write of `"x"` to id 9 with the cache healthy
populates `item:9 -> "x"`; a later fully successful write of `""` to id 9 made
while Redis is unreachable commits the empty value but skips `setex`, leaving
the stale non-empty cache entry; the next healthy read of id 9 then returns
`{id: 9, value: "x", source: "redis"}` — served from the cache, no
fall-through — even though the stored value of item 9 is `""`. -/
theorem C10_counterexample :
    (create_data envNoRedis (create_data envGood sReady 9 "x").2 9 "").1
      = Resp.item 9 "" "database" (some "created") ∧
    lookupA (create_data envNoRedis (create_data envGood sReady 9 "x").2 9 "").2.db 9
      = some "" ∧
    (get_data envGood
        (create_data envNoRedis (create_data envGood sReady 9 "x").2 9 "").2 9).1
      = Resp.item 9 "x" "redis" none :=
  ⟨rfl, rfl, rfl⟩

/-- Claim C10 (amended): the empty value itself is never served from the cache
— any `get_data` response with provenance `"redis"` carries a non-empty value,
because the `if cached:` truthiness test treats an empty cached string as a
miss.  The fall-through holds only when the cache entry for the id is absent or
itself `""`: then a read of a stored-`""` item goes to the store, returns
`source: "database"`, and repopulates the cache with `""`.  But when a stale
non-empty entry survives (e.g. after a write of `""` performed while the cache
was unavailable), a healthy read serves that stale value from the cache with
`source: "redis"` instead of falling through (see the counterexample). -/
theorem C10_empty_value_never_from_cache (env : Env) (s : Sys) (id : Int) :
    (∀ i v a, (get_data env s id).1 = Resp.item i v "redis" a → v ≠ "") ∧
    (get_db_connection env = true → env.dbOpFails = false →
      s.tableReady = true → s.tableExists = true →
      lookupA s.db id = some "" →
      (lookupC s.cache (itemKey id) = none ∨ lookupC s.cache (itemKey id) = some "") →
      get_redis_client env = true → env.redisOpFails = false →
      (get_data env s id).1 = Resp.item id "" "database" none ∧
      lookupC (get_data env s id).2.cache (itemKey id) = some "") ∧
    (s.tableReady = true → get_redis_client env = true → env.redisOpFails = false →
      ∀ c, lookupC s.cache (itemKey id) = some c → c ≠ "" →
      (get_data env s id).1 = Resp.item id c "redis" none) := by
  refine ⟨?_, ?_, ?_⟩
  · intro i v a heq
    rcases get_data_shape env s id with hsh | hsh | ⟨c, hcc, hce, hsh⟩
    · rw [hsh] at heq
      exact absurd heq (get_data_db_never_redis env _ _ id i v a)
    · rw [hsh] at heq
      exact Resp.noConfusion heq
    · rw [hsh] at heq
      have heq2 : Resp.item id c "redis" none = Resp.item i v "redis" a := heq
      cases heq2
      exact hce
  · intro hc hf hready hex hdb hcache hr hro
    have hs1 : (ensure_table env s).1 = s := by
      rw [ensure_table_of_ready env s hready]
    unfold get_data get_data_db
    rcases hcache with hcc | hcc <;>
      simp [hr, hro, hs1, hcc, hc, hf, hex, hdb, lookupC_upsertC_self]
  · intro hready hr hro c hcc hce
    exact get_data_cache_hit env s id c hr hro hready hcc hce

theorem C10_witness :
    ((get_data envGood sEmptyVal 9).1 = Resp.item 9 "" "database" none ∧
      lookupC (get_data envGood sEmptyVal 9).2.cache (itemKey 9) = some "") ∧
    (get_data envGood ⟨true, true, [(9, "")], [("item:9", "x")]⟩ 9).1
      = Resp.item 9 "x" "redis" none :=
  ⟨(C10_empty_value_never_from_cache envGood sEmptyVal 9).2.1 rfl rfl rfl rfl rfl
      (Or.inr rfl) rfl rfl,
   (C10_empty_value_never_from_cache envGood ⟨true, true, [(9, "")], [("item:9", "x")]⟩
      9).2.2 rfl rfl rfl "x" rfl (by decide)⟩
